import Mathlib

/-!
Shallow embedding of the timeline / clip / undo-redo state machine and the
job-polling logic of the ai-video-editor repository.

The repository ships several variants of the same application:

* `src/App.tsx` lines 383-1416 — the history-enabled single-track editor
  (`saveHistory` / `undo` / `redo`, `handleGenerate`, `handleExtend`, ...).
  This is the main variant and is embedded below on `AppState` /
  `EditorState`.
* `src/App.tsx` lines 1-381 — a multi-track variant without history
  (tracks `v1`/`v2`/`a1`); its `handleGenerate` (lines 65-92) is embedded
  on `UAppState`.
* `src/services/gemini.ts` lines 171-189 — `pollOperation` with a
  missing-URI check but no error check (embedded as `pollOperationEditor`).
* `src/unnamed/part_000` lines 132-144 — `pollOperation` with an error
  check but no missing-URI check (embedded as `pollOperationUnnamed`).

Numeric time quantities (playback speed, start time, duration) are modelled
as rationals; they are carried but never computed with by any verified
operation.  Platform I/O (blob download, canvas frame grab, alert rendering)
is opaque: a download of URI `u` is modelled as the string `"blob:" ++ u`,
and an alert is modelled as the message string in the operation outcome.
The `./types` module is not part of `src/`; the `ClipStatus` enumeration is
modelled from the spec (section 3: status enum pending, generating, ready,
error — the source only ever constructs the literals `generating` and
`ready`).
-/

namespace VideoEditor

/-- Clip status enumeration.  Modelled from the spec: the `./types` module is
missing from the sources; section 3 of the spec fixes the enum
pending / generating / ready / error. -/
inductive ClipStatus where
  | pending
  | generating
  | ready
  | error
deriving DecidableEq, Repr

/-- Media kind of an asset (the `type` field of `MediaAsset`). -/
inductive MediaType where
  | video
  | image
  | audio
deriving DecidableEq, Repr

/-- Lumetri color-grading parameters (integer literals in the source). -/
structure ColorGrading where
  exposure : Int
  contrast : Int
  saturation : Int
  vibrance : Int
  tint : Int
  highlights : Int
  shadows : Int
  temperature : Int
deriving DecidableEq, Repr

/-- A detected scene marker returned by scene analysis. -/
structure Scene where
  timestamp : String
  description : String
deriving DecidableEq, Repr

/-- A generated caption with start and end times. -/
structure Caption where
  text : String
  startTime : Rat
  endTime : Rat
deriving DecidableEq, Repr

/-- One storyboard entry returned by storyboard generation. -/
structure StoryboardItem where
  sceneNumber : Nat
  title : String
  description : String
  shotComposition : String
  visualCues : String
  estimatedDuration : String
deriving DecidableEq, Repr

/-- A media asset.  `originalUri` is the remote handle present only on
AI-generated videos (`VideoAsset` in the source); the decoded-metadata
fields (`width`, `height`, `codec`) from `getVideoMetadata` are not read by
any verified operation and are elided. -/
structure MediaAsset where
  id : String
  name : String
  url : String
  type : MediaType
  base64 : Option String
  originalUri : Option String
  duration : Option Rat
deriving DecidableEq, Repr

/-- A timeline clip.  Presentation-only attributes not read by any embedded
operation (text overlay, background settings, audio settings) are elided. -/
structure TimelineClip where
  id : String
  assetId : String
  prompt : Option String
  order : Nat
  status : ClipStatus
  playbackSpeed : Option Rat
  extendedFromId : Option String
  transition : Option String
  startTime : Option Rat
  duration : Option Rat
  scenes : Option (List Scene)
  autoCaptions : Option (List Caption)
  colorGrading : Option ColorGrading
deriving DecidableEq, Repr

/-- The application state of the history-enabled editor variant
(`App.tsx` line 397: assets, timeline, isGenerating, activeClipId,
isAnalyzing, isProcessingBg, isAnalyzingStoryboard, storyboard). -/
structure AppState where
  assets : List MediaAsset
  timeline : List TimelineClip
  isGenerating : Bool
  activeClipId : Option String
  isAnalyzing : Bool
  isProcessingBg : Bool
  isAnalyzingStoryboard : Bool
  storyboard : Option (List StoryboardItem)
deriving DecidableEq, Repr

/-- A history snapshot: the subset of state tracked for undo/redo
(`App.tsx` lines 389-394). -/
structure HistoryItem where
  assets : List MediaAsset
  timeline : List TimelineClip
  activeClipId : Option String
deriving DecidableEq, Repr

/-- The full editor state: the React component state together with the
`past` and `future` history stacks. -/
structure EditorState where
  state : AppState
  past : List HistoryItem
  future : List HistoryItem
deriving DecidableEq, Repr

/-- The snapshot taken by `saveHistory`, `undo` and `redo`: the current
assets, timeline and active-clip selection. -/
def snapshot (s : AppState) : HistoryItem :=
  { assets := s.assets, timeline := s.timeline, activeClipId := s.activeClipId }

/-- Restoring a snapshot: `setState((prev) => ({ ...prev, assets, timeline,
activeClipId }))` — only the three tracked fields change. -/
def restore (s : AppState) (h : HistoryItem) : AppState :=
  { s with assets := h.assets, timeline := h.timeline, activeClipId := h.activeClipId }

/-- `saveHistory` (`App.tsx` lines 419-427): push the current snapshot onto
`past` and clear the redo stack. -/
def saveHistory (es : EditorState) : EditorState :=
  { es with past := es.past ++ [snapshot es.state], future := [] }

/-- `undo` (`App.tsx` lines 429-448): no-op on empty past; otherwise pop the
last past snapshot, push the current snapshot onto the front of `future`,
and restore the popped snapshot. -/
def undo (es : EditorState) : EditorState :=
  match es.past.getLast? with
  | none => es
  | some previous =>
      { state := restore es.state previous
        past := es.past.dropLast
        future := snapshot es.state :: es.future }

/-- `redo` (`App.tsx` lines 450-469): no-op on empty future; otherwise pop
the first future snapshot, push the current snapshot onto the end of
`past`, and restore the popped snapshot. -/
def redo (es : EditorState) : EditorState :=
  match es.future with
  | [] => es
  | next :: newFuture =>
      { state := restore es.state next
        past := es.past ++ [snapshot es.state]
        future := newFuture }

/-- A checkpointed user action: the call-site discipline
`saveHistory(); setState(mutator)` used by every undo-able action in the
source, for an arbitrary state mutator `f`. -/
def checkpointedAction (f : AppState → AppState) (es : EditorState) : EditorState :=
  let es1 := saveHistory es
  { es1 with state := f es1.state }

/-- A sequence of checkpointed user actions, applied left to right. -/
def runActions (fs : List (AppState → AppState)) (es : EditorState) : EditorState :=
  fs.foldl (fun e f => checkpointedAction f e) es

/-- The final state after applying a list of mutators left to right. -/
def applyAll : List (AppState → AppState) → AppState → AppState
  | [], s => s
  | f :: fs, s => applyAll fs (f s)

/-- The snapshots pushed by a sequence of checkpointed actions: one
pre-mutation snapshot per action. -/
def snapTrace : List (AppState → AppState) → AppState → List HistoryItem
  | [], _ => []
  | f :: fs, s => snapshot s :: snapTrace fs (f s)

/-! ### Job polling

An `Operation` models one long-running-operation value as seen by
`pollOperation`: the `done` flag, the optional `error.message`, and the two
places a result URI may live
(`response?.generatedVideos?.[0]?.video?.uri` and, in the `part_000`
variant only, the fallback `response?.generatedVideos?.[0]?.uri`).
A poll run is driven by a finite script: the list of operation values the
collaborator would return to successive `getVideosOperation` calls.  Each
recursion step stands for one sleep(5000)-then-query cycle. -/

structure Operation where
  done : Bool
  error : Option String
  videoUri : Option String
  genUri : Option String
deriving DecidableEq, Repr

/-- Outcome of a poll run.  `ok` carries the `originalUri` field of the
returned record (the downloaded blob is platform I/O and elided) together
with the number of sleep cycles performed; `outOfScript` means the loop was
still polling when the finite script ran out, i.e. the run does not
terminate within the scripted responses. -/
inductive PollOutcome where
  | ok (originalUri : Option String) (sleeps : Nat)
  | genError (msg : String) (sleeps : Nat)
  | noUri (sleeps : Nat)
  | outOfScript
deriving DecidableEq, Repr

/-- The code after the while loop in `gemini.ts` `pollOperation`
(lines 180-188): read `video?.uri`, throw the no-URI error when absent,
otherwise download and return. -/
def editorPollFinish (op : Operation) (sleeps : Nat) : PollOutcome :=
  match op.videoUri with
  | some uri => PollOutcome.ok (some uri) sleeps
  | none => PollOutcome.noUri sleeps

/-- `pollOperation` of `src/services/gemini.ts` (lines 171-189): while not
done, sleep then query; the loop body performs no error check.  After the
loop, fail when no video URI is present. -/
def pollOperationEditor : Operation → List Operation → Nat → PollOutcome
  | op, script, sleeps =>
    if op.done then editorPollFinish op sleeps
    else
      match script with
      | [] => PollOutcome.outOfScript
      | r :: rest => pollOperationEditor r rest (sleeps + 1)

/-- The code after the while loop in `part_000` `pollOperation`
(lines 140-143): read `video?.uri || [0]?.uri` with no missing-URI check;
the fetch of the (possibly undefined) link is modelled as succeeding, so
the run returns `ok` with the optional URI as `originalUri`. -/
def unnamedPollFinish (op : Operation) (sleeps : Nat) : PollOutcome :=
  PollOutcome.ok
    (match op.videoUri with
      | some uri => some uri
      | none => op.genUri)
    sleeps

/-- `pollOperation` of `src/unnamed/part_000` (lines 132-144): while not
done, sleep then query, and throw `error.message` as soon as a queried
operation carries an error; after the loop, return the optional URI with no
missing-URI check. -/
def pollOperationUnnamed : Operation → List Operation → Nat → PollOutcome
  | op, script, sleeps =>
    if op.done then unnamedPollFinish op sleeps
    else
      match script with
      | [] => PollOutcome.outOfScript
      | r :: rest =>
        match r.error with
        | some msg => PollOutcome.genError msg (sleeps + 1)
        | none => pollOperationUnnamed r rest (sleeps + 1)

/-! ### The generate / extend flows of the history-enabled editor

Each `async` handler is split at its suspension points into the pure state
transitions it performs: the submission phase (everything up to and
including the optimistic placeholder insertion), the resolution phase (the
`setState` run when `pollOperation` resolves), and the failure phase (the
`catch` block). -/

/-- The placeholder `tempClip` built by `handleGenerate`
(`App.tsx` lines 769-776). -/
def mkTempClip (newClipId prompt : String) (ord : Nat) : TimelineClip :=
  { id := newClipId, assetId := "", prompt := some prompt, order := ord
    status := ClipStatus.generating, playbackSpeed := some 1
    extendedFromId := none, transition := none, startTime := none
    duration := none, scenes := none, autoCaptions := none, colorGrading := none }

/-- The `VideoAsset` built by `handleGenerate` on resolution
(`App.tsx` lines 788-795). -/
def mkGeneratedAsset (newAssetId prompt uri : String) : MediaAsset :=
  { id := newAssetId, name := "AI Generated " ++ prompt.take 10 ++ "..."
    url := "blob:" ++ uri, type := MediaType.video, base64 := none
    originalUri := some uri, duration := none }

/-- Submission phase of `handleGenerate` (`App.tsx` lines 752-784): set the
busy flag, then (once the collaborator accepted the job) `saveHistory` and
append the placeholder clip, selecting it. -/
def generateSubmit (prompt newClipId : String) (es : EditorState) : EditorState :=
  let esBusy : EditorState :=
    { es with state := { es.state with isGenerating := true } }
  let tempClip := mkTempClip newClipId prompt esBusy.state.timeline.length
  let es2 := saveHistory esBusy
  { es2 with state :=
      { es2.state with
          timeline := es2.state.timeline ++ [tempClip]
          activeClipId := some newClipId } }

/-- Resolution phase of `handleGenerate` (`App.tsx` lines 786-806): append
exactly one new asset and flip the clip with the placeholder id to `ready`
with the new asset id, clearing the busy flag. -/
def generateResolve (newClipId newAssetId prompt uri : String) (es : EditorState) :
    EditorState :=
  let newVideoAsset := mkGeneratedAsset newAssetId prompt uri
  { es with state :=
      { es.state with
          assets := es.state.assets ++ [newVideoAsset]
          timeline := es.state.timeline.map fun c =>
            if c.id == newClipId
            then { c with assetId := newVideoAsset.id, status := ClipStatus.ready }
            else c
          isGenerating := false } }

/-- Failure phase of `handleGenerate` (`App.tsx` lines 808-812): the catch
block only clears the busy flag (and alerts); it does not touch the
timeline. -/
def generateFail (es : EditorState) : EditorState :=
  { es with state := { es.state with isGenerating := false } }

/-- The alert text of the `handleExtend` guard (`App.tsx` line 821). -/
def extendAlertMsg : String :=
  "Only AI-generated videos with accessible remote links can be extended."

/-- Outcome of the synchronous prefix of `handleExtend`: the guard either
returns silently, aborts with an alert, or proceeds to submit with the
remote handle of the selected clip. -/
inductive ExtendOutcome where
  | silentReturn
  | alertOnly (msg : String)
  | proceed (originalUri : String)
deriving DecidableEq, Repr

/-- The synchronous prefix of `handleExtend` (`App.tsx` lines 815-825):
look up the active clip (silent return unless found and `ready`), look up
its asset (alert unless a video with an `originalUri`), then set the busy
flag and submit. -/
def handleExtendStart (st : AppState) : AppState × ExtendOutcome :=
  match st.timeline.find? (fun c => st.activeClipId == some c.id) with
  | none => (st, ExtendOutcome.silentReturn)
  | some activeClip =>
    if activeClip.status ≠ ClipStatus.ready then (st, ExtendOutcome.silentReturn)
    else
      match st.assets.find? (fun a => a.id == activeClip.assetId) with
      | none => (st, ExtendOutcome.alertOnly extendAlertMsg)
      | some asset =>
        if asset.type ≠ MediaType.video then (st, ExtendOutcome.alertOnly extendAlertMsg)
        else
          match asset.originalUri with
          | none => (st, ExtendOutcome.alertOnly extendAlertMsg)
          | some uri =>
              ({ st with isGenerating := true }, ExtendOutcome.proceed uri)

/-- The placeholder clip appended by `handleExtend` (`App.tsx`
lines 835-841). -/
def mkExtendClip (newClipId : String) (extensionDuration : Nat)
    (fromClipId : String) (ord : Nat) : TimelineClip :=
  { id := newClipId, assetId := ""
    prompt := some ("AI Extension (+" ++ toString extensionDuration ++ "s)")
    order := ord, status := ClipStatus.generating, playbackSpeed := some 1
    extendedFromId := some fromClipId, transition := none, startTime := none
    duration := none, scenes := none, autoCaptions := none, colorGrading := none }

/-- Placeholder insertion of `handleExtend` after the job was accepted
(`App.tsx` lines 831-841): `saveHistory`, append the extension placeholder
and select it. -/
def handleExtendInsert (newClipId : String) (extensionDuration : Nat)
    (fromClipId : String) (es : EditorState) : EditorState :=
  let es2 := saveHistory es
  { es2 with state :=
      { es2.state with
          timeline := es2.state.timeline ++
            [mkExtendClip newClipId extensionDuration fromClipId
              es2.state.timeline.length]
          activeClipId := some newClipId } }

/-- Failure phase of `handleExtend` (`App.tsx` lines 860-864): the catch
block only clears the busy flag (and alerts). -/
def handleExtendFail (es : EditorState) : EditorState :=
  { es with state := { es.state with isGenerating := false } }

/-! ### Advisory-suggestion fallbacks

The service methods parse the collaborator response text as JSON inside a
try/catch and fall back to a fixed neutral value when parsing fails.  The
platform JSON parse is modelled by its outcome: `some v` for a successful
parse of value `v`, `none` for a parse failure. -/

/-- The neutral Lumetri parameters returned by `suggestColorGrading` on a
parse failure (`part_000` line 36). -/
def neutralColorGrading : ColorGrading :=
  { exposure := 0, contrast := 50, saturation := 100, vibrance := 50
    tint := 0, highlights := 0, shadows := 0, temperature := 0 }

/-- `suggestColorGrading` response handling (`part_000` lines 33-37). -/
def suggestColorGradingResult (parsed : Option ColorGrading) : ColorGrading :=
  match parsed with
  | some g => g
  | none => neutralColorGrading

/-- `suggestBRoll` response handling (`part_000` line 47). -/
def suggestBRollResult (parsed : Option (List String)) : List String :=
  parsed.getD []

/-- `generateViralCaptions` response handling (`part_000` line 57). -/
def generateViralCaptionsResult (parsed : Option (List Caption)) : List Caption :=
  parsed.getD []

/-- `analyzeScenes` response handling (`part_000` line 67 and
`gemini.ts` lines 106-111). -/
def analyzeScenesResult (parsed : Option (List Scene)) : List Scene :=
  parsed.getD []

/-- `generateStoryboard` response handling (`part_000` line 77 and
`gemini.ts` lines 163-168). -/
def generateStoryboardResult (parsed : Option (List StoryboardItem)) :
    List StoryboardItem :=
  parsed.getD []

/-- Completion of `handleScanScenes` (`App.tsx` lines 711-719):
`saveHistory`, then attach the scene list to the active clip and clear the
analysis busy flag. -/
def handleScanScenesComplete (activeClipId' : String) (scenes : List Scene)
    (es : EditorState) : EditorState :=
  let es2 := saveHistory es
  { es2 with state :=
      { es2.state with
          timeline := es2.state.timeline.map fun c =>
            if c.id == activeClipId' then { c with scenes := some scenes } else c
          isAnalyzing := false } }

/-- Completion of `handleGenerateStoryboard` (`App.tsx` line 734): store the
storyboard overlay and clear its busy flag; the timeline is untouched. -/
def handleStoryboardComplete (sb : List StoryboardItem) (st : AppState) : AppState :=
  { st with storyboard := some sb, isAnalyzingStoryboard := false }

/-! ### The multi-track variant (`App.tsx` lines 1-381) -/

/-- A track of the multi-track variant. -/
structure Track where
  id : String
  type : MediaType
  name : String
  clips : List TimelineClip
  isLocked : Bool
  isVisible : Bool
deriving DecidableEq, Repr

/-- Application state of the multi-track variant (`App.tsx` lines 9-24). -/
structure UAppState where
  assets : List MediaAsset
  tracks : List Track
  isGenerating : Bool
  activeClipId : Option String
  activeTrackId : String
  isAnalyzing : Bool
  isProcessingBg : Bool
  isAnalyzingStoryboard : Bool
  storyboard : Option (List StoryboardItem)
  isBoosting : Bool
deriving DecidableEq, Repr

/-- The initial state of the multi-track variant: three fixed tracks and no
clips (`App.tsx` lines 9-24). -/
def uInitState : UAppState :=
  { assets := []
    tracks :=
      [ { id := "v1", type := MediaType.video, name := "Video 1", clips := []
          isLocked := false, isVisible := true }
      , { id := "v2", type := MediaType.video, name := "Overlay", clips := []
          isLocked := false, isVisible := true }
      , { id := "a1", type := MediaType.audio, name := "Music", clips := []
          isLocked := false, isVisible := true } ]
    isGenerating := false, activeClipId := none, activeTrackId := "v1"
    isAnalyzing := false, isProcessingBg := false
    isAnalyzingStoryboard := false, storyboard := none, isBoosting := false }

/-- Submission phase of the multi-track `handleGenerate`
(`App.tsx` lines 73-75): the only state change before the job resolves is
the busy flag — no placeholder clip is inserted. -/
def uGenerateSubmit (st : UAppState) : UAppState :=
  { st with isGenerating := true }

/-- Resolution phase of the multi-track `handleGenerate`
(`App.tsx` lines 76-87): append the new asset and a clip that is created
directly with status `ready`, onto the active track. -/
def uGenerateResolve (newAssetId newClipId uri : String) (currentTime : Rat)
    (st : UAppState) : UAppState :=
  let newAsset : MediaAsset :=
    { id := newAssetId, name := "AI Generated", url := "blob:" ++ uri
      type := MediaType.video, base64 := none, originalUri := some uri
      duration := none }
  let newClip : TimelineClip :=
    { id := newClipId, assetId := newAsset.id, prompt := none, order := 0
      status := ClipStatus.ready, playbackSpeed := some 1
      extendedFromId := none, transition := none
      startTime := some currentTime, duration := some 5, scenes := none
      autoCaptions := none, colorGrading := none }
  { st with
      assets := st.assets ++ [newAsset]
      tracks := st.tracks.map fun t =>
        if t.id == st.activeTrackId then { t with clips := t.clips ++ [newClip] } else t
      isGenerating := false
      activeClipId := some newClipId }

/-! ### Concrete states used by witnesses and counterexamples -/

/-- A pending (not yet done) operation response. -/
def opNotDone : Operation :=
  { done := false, error := none, videoUri := none, genUri := none }

/-- A completed operation response carrying a video URI. -/
def opDoneWith (uri : String) : Operation :=
  { done := true, error := none, videoUri := some uri, genUri := none }

/-- A completed operation response with an error message and no result. -/
def opErrorDone (msg : String) : Operation :=
  { done := true, error := some msg, videoUri := none, genUri := none }

/-- A not-yet-done operation response that already carries an error. -/
def opErrorPending (msg : String) : Operation :=
  { done := false, error := some msg, videoUri := none, genUri := none }

/-- A completed operation response with no result URI at all. -/
def opDoneNoUri : Operation :=
  { done := true, error := none, videoUri := none, genUri := none }

/-- The empty application state of the history-enabled editor
(`App.tsx` lines 397-406). -/
def emptyAppState : AppState :=
  { assets := [], timeline := [], isGenerating := false, activeClipId := none
    isAnalyzing := false, isProcessingBg := false
    isAnalyzingStoryboard := false, storyboard := none }

/-- The empty editor state: empty application state, empty history stacks. -/
def emptyEditor : EditorState :=
  { state := emptyAppState, past := [], future := [] }

/-- A user-uploaded video asset: a video with no `originalUri`. -/
def uploadedVideoAsset : MediaAsset :=
  { id := "vid1", name := "upload.mp4", url := "blob:upload", type := MediaType.video
    base64 := none, originalUri := none, duration := some 5 }

/-- A clip referencing `uploadedVideoAsset`, created `ready` as by the
timeline drop handler (`App.tsx` line 1366). -/
def uploadedVideoClip : TimelineClip :=
  { id := "clip1", assetId := "vid1", prompt := none, order := 0
    status := ClipStatus.ready, playbackSpeed := some 1, extendedFromId := none
    transition := some "none", startTime := none, duration := none
    scenes := none, autoCaptions := none, colorGrading := none }

/-- The `uploadedVideoClip` with status `generating` instead of `ready`. -/
def generatingVideoClip : TimelineClip :=
  { uploadedVideoClip with status := ClipStatus.generating }

/-- A state whose selected clip is `ready` and references the uploaded
(no-remote-handle) video asset. -/
def extendReadyState : AppState :=
  { emptyAppState with
      assets := [uploadedVideoAsset]
      timeline := [uploadedVideoClip]
      activeClipId := some "clip1" }

/-- A state whose selected clip references the uploaded (no-remote-handle)
video asset but is not `ready`. -/
def extendGeneratingState : AppState :=
  { emptyAppState with
      assets := [uploadedVideoAsset]
      timeline := [generatingVideoClip]
      activeClipId := some "clip1" }

/-! ## Helper lemmas -/

theorem snapshot_restore (s : AppState) (h : HistoryItem) :
    snapshot (restore s h) = h := rfl

theorem restore_restore (s : AppState) (h h' : HistoryItem) :
    restore (restore s h) h' = restore s h' := rfl

theorem undo_concat (p : List HistoryItem) (h : HistoryItem) (s : AppState)
    (fut : List HistoryItem) :
    undo ⟨s, p ++ [h], fut⟩ = ⟨restore s h, p, snapshot s :: fut⟩ := by
  simp [undo, List.getLast?_concat, List.dropLast_concat]

/-- Running `undo` once per snapshot through a block `hd :: snaps` at the
top of the past stack pops the whole block, restores the oldest snapshot
and moves the visited snapshots onto the future stack. -/
theorem undo_block (snaps : List HistoryItem) (hd : HistoryItem)
    (p : List HistoryItem) :
    ∀ (s : AppState) (fut : List HistoryItem),
      undo^[snaps.length + 1] ⟨s, p ++ hd :: snaps, fut⟩ =
        ⟨restore s hd, p, snaps ++ snapshot s :: fut⟩ := by
  induction snaps using List.reverseRecOn with
  | nil =>
      intro s fut
      simpa using undo_concat p hd s fut
  | append_singleton l a ih =>
      intro s fut
      have hx : p ++ hd :: (l ++ [a]) = (p ++ hd :: l) ++ [a] := by simp
      calc undo^[(l ++ [a]).length + 1] ⟨s, p ++ hd :: (l ++ [a]), fut⟩
          = undo^[l.length + 1] (undo ⟨s, (p ++ hd :: l) ++ [a], fut⟩) := by
            rw [← hx]
            simp [Function.iterate_succ_apply]
        _ = undo^[l.length + 1] ⟨restore s a, p ++ hd :: l, snapshot s :: fut⟩ := by
            rw [undo_concat]
        _ = ⟨restore s hd, p, (l ++ [a]) ++ snapshot s :: fut⟩ := by
            rw [ih (restore s a) (snapshot s :: fut), restore_restore,
              snapshot_restore]
            simp

/-- Running `redo` once per snapshot through a block `l ++ [lastH]` at the
front of the future stack consumes the whole block, restores the newest
snapshot and appends the visited snapshots to the past stack. -/
theorem redo_block (l : List HistoryItem) (lastH : HistoryItem)
    (fut : List HistoryItem) :
    ∀ (s : AppState) (p : List HistoryItem),
      redo^[l.length + 1] ⟨s, p, (l ++ [lastH]) ++ fut⟩ =
        ⟨restore s lastH, p ++ snapshot s :: l, fut⟩ := by
  induction l with
  | nil =>
      intro s p
      simp [redo]
  | cons b l' ih =>
      intro s p
      calc redo^[(b :: l').length + 1] ⟨s, p, ((b :: l') ++ [lastH]) ++ fut⟩
          = redo^[l'.length + 1] (redo ⟨s, p, b :: ((l' ++ [lastH]) ++ fut)⟩) := by
            simp [Function.iterate_succ_apply]
        _ = redo^[l'.length + 1]
              ⟨restore s b, p ++ [snapshot s], (l' ++ [lastH]) ++ fut⟩ := by
            rw [redo]
        _ = ⟨restore s lastH, p ++ snapshot s :: b :: l', fut⟩ := by
            rw [ih (restore s b) (p ++ [snapshot s]), restore_restore,
              snapshot_restore]
            simp

theorem snapTrace_length (fs : List (AppState → AppState)) :
    ∀ s : AppState, (snapTrace fs s).length = fs.length := by
  induction fs with
  | nil => intro s; rfl
  | cons f fs ih => intro s; simp [snapTrace, ih]

/-- A nonempty sequence of checkpointed actions leaves the mutated state,
appends one pre-mutation snapshot per action to the past stack, and leaves
the future stack empty. -/
theorem runActions_run (fs : List (AppState → AppState)) (hne : fs ≠ []) :
    ∀ (s : AppState) (p fut : List HistoryItem),
      runActions fs ⟨s, p, fut⟩ = ⟨applyAll fs s, p ++ snapTrace fs s, []⟩ := by
  induction fs with
  | nil => exact absurd rfl hne
  | cons f fs ih =>
      intro s p fut
      match fs, ih with
      | [], _ =>
          simp [runActions, checkpointedAction, saveHistory, applyAll, snapTrace]
      | g :: gs, ih =>
          have h1 : runActions (f :: g :: gs) ⟨s, p, fut⟩ =
              runActions (g :: gs) ⟨f s, p ++ [snapshot s], []⟩ := rfl
          rw [h1, ih (by simp) (f s) (p ++ [snapshot s]) []]
          simp [applyAll, snapTrace]

/-! ## Claim theorems -/

/-- C1.  For every sequence of N checkpointed user actions from any editor
state, N applications of `undo` restore the tracked state fields assets,
timeline and activeClipId to their values before the first action, and N
subsequent applications of `redo` restore them to their values after the
N-th action. -/
theorem undo_redo_roundtrip (fs : List (AppState → AppState)) (es : EditorState) :
    ((undo^[fs.length] (runActions fs es)).state.assets = es.state.assets ∧
     (undo^[fs.length] (runActions fs es)).state.timeline = es.state.timeline ∧
     (undo^[fs.length] (runActions fs es)).state.activeClipId = es.state.activeClipId) ∧
    ((redo^[fs.length] (undo^[fs.length] (runActions fs es))).state.assets =
        (runActions fs es).state.assets ∧
     (redo^[fs.length] (undo^[fs.length] (runActions fs es))).state.timeline =
        (runActions fs es).state.timeline ∧
     (redo^[fs.length] (undo^[fs.length] (runActions fs es))).state.activeClipId =
        (runActions fs es).state.activeClipId) := by
  obtain ⟨s, p, fut⟩ := es
  match fs with
  | [] => simp [runActions]
  | f :: fs' =>
      have hrun := runActions_run (f :: fs') (by simp) s p fut
      have hlen : (f :: fs').length = (snapTrace fs' (f s)).length + 1 := by
        simp [snapTrace_length]
      have htr : snapTrace (f :: fs') s = snapshot s :: snapTrace fs' (f s) := rfl
      set S := applyAll (f :: fs') s with hS
      have hundo : undo^[(f :: fs').length] (runActions (f :: fs') ⟨s, p, fut⟩) =
          ⟨restore S (snapshot s), p, snapTrace fs' (f s) ++ snapshot S :: []⟩ := by
        rw [hrun, htr, hlen]
        exact undo_block (snapTrace fs' (f s)) (snapshot s) p S []
      have hredo : redo^[(f :: fs').length]
          (undo^[(f :: fs').length] (runActions (f :: fs') ⟨s, p, fut⟩)) =
          ⟨restore (restore S (snapshot s)) (snapshot S),
            p ++ snapshot (restore S (snapshot s)) :: snapTrace fs' (f s), []⟩ := by
        rw [hundo, hlen]
        have := redo_block (snapTrace fs' (f s)) (snapshot S) []
          (restore S (snapshot s)) p
        simpa using this
      refine ⟨?_, ?_⟩
      · rw [hundo]
        simp [restore, snapshot]
      · rw [hredo, hrun]
        simp [restore, snapshot]

/-- C2.  `saveHistory` pushes the current assets/timeline/activeClipId
snapshot onto the past stack, leaves the future (redo) stack empty and does
not change the live state; consequently `redo` is a no-op immediately after
any checkpointed action. -/
theorem saveHistory_clears_future (es : EditorState) (f : AppState → AppState) :
    (saveHistory es).past = es.past ++ [snapshot es.state] ∧
    (saveHistory es).future = [] ∧
    (saveHistory es).state = es.state ∧
    redo (checkpointedAction f es) = checkpointedAction f es :=
  ⟨rfl, rfl, rfl, rfl⟩

/-- C10.  `undo` and `redo` only touch the tracked fields assets, timeline
and activeClipId: the busy flags isGenerating, isAnalyzing, isProcessingBg,
isAnalyzingStoryboard and the storyboard overlay are unchanged by both. -/
theorem undo_redo_frame (es : EditorState) :
    ((undo es).state.isGenerating = es.state.isGenerating ∧
     (undo es).state.isAnalyzing = es.state.isAnalyzing ∧
     (undo es).state.isProcessingBg = es.state.isProcessingBg ∧
     (undo es).state.isAnalyzingStoryboard = es.state.isAnalyzingStoryboard ∧
     (undo es).state.storyboard = es.state.storyboard) ∧
    ((redo es).state.isGenerating = es.state.isGenerating ∧
     (redo es).state.isAnalyzing = es.state.isAnalyzing ∧
     (redo es).state.isProcessingBg = es.state.isProcessingBg ∧
     (redo es).state.isAnalyzingStoryboard = es.state.isAnalyzingStoryboard ∧
     (redo es).state.storyboard = es.state.storyboard) := by
  constructor
  · cases h : es.past.getLast? <;> simp [undo, h, restore]
  · cases h : es.future <;> simp [redo, h, restore]

/-! ## Polling lemmas -/

theorem pollEditor_done (op : Operation) (script : List Operation) (sleeps : Nat)
    (h : op.done = true) :
    pollOperationEditor op script sleeps = editorPollFinish op sleeps := by
  cases script <;> simp [pollOperationEditor, h]

theorem pollEditor_step (op r : Operation) (rest : List Operation) (sleeps : Nat)
    (h : op.done = false) :
    pollOperationEditor op (r :: rest) sleeps = pollOperationEditor r rest (sleeps + 1) := by
  simp [pollOperationEditor, h]

theorem pollEditor_nil (op : Operation) (sleeps : Nat) (h : op.done = false) :
    pollOperationEditor op [] sleeps = PollOutcome.outOfScript := by
  simp [pollOperationEditor, h]

theorem pollUnnamed_done (op : Operation) (script : List Operation) (sleeps : Nat)
    (h : op.done = true) :
    pollOperationUnnamed op script sleeps = unnamedPollFinish op sleeps := by
  cases script <;> simp [pollOperationUnnamed, h]

theorem pollUnnamed_error (op r : Operation) (rest : List Operation) (sleeps : Nat)
    (h : op.done = false) (msg : String) (herr : r.error = some msg) :
    pollOperationUnnamed op (r :: rest) sleeps = PollOutcome.genError msg (sleeps + 1) := by
  simp [pollOperationUnnamed, h, herr]

theorem pollUnnamed_step (op r : Operation) (rest : List Operation) (sleeps : Nat)
    (h : op.done = false) (herr : r.error = none) :
    pollOperationUnnamed op (r :: rest) sleeps = pollOperationUnnamed r rest (sleeps + 1) := by
  simp [pollOperationUnnamed, h, herr]

theorem editorPollFinish_ne_out (op : Operation) (sleeps : Nat) :
    editorPollFinish op sleeps ≠ PollOutcome.outOfScript := by
  cases h : op.videoUri <;> simp [editorPollFinish, h]

theorem unnamedPollFinish_ne_out (op : Operation) (sleeps : Nat) :
    unnamedPollFinish op sleeps ≠ PollOutcome.outOfScript := by
  simp [unnamedPollFinish]

theorem pollEditor_terminates (script : List Operation) :
    ∀ (op : Operation) (sleeps : Nat),
      op.done = true ∨ (∃ r ∈ script, r.done = true) →
      pollOperationEditor op script sleeps ≠ PollOutcome.outOfScript := by
  induction script with
  | nil =>
      intro op sleeps h
      rcases h with hd | ⟨r, hr, _⟩
      · rw [pollEditor_done op [] sleeps hd]
        exact editorPollFinish_ne_out op sleeps
      · simp at hr
  | cons r rest ih =>
      intro op sleeps h
      cases hd : op.done with
      | true =>
          rw [pollEditor_done op (r :: rest) sleeps hd]
          exact editorPollFinish_ne_out op sleeps
      | false =>
          rw [pollEditor_step op r rest sleeps hd]
          cases hr : r.done with
          | true => exact ih r (sleeps + 1) (Or.inl hr)
          | false =>
              refine ih r (sleeps + 1) (Or.inr ?_)
              rcases h with hcontr | ⟨x, hx, hxd⟩
              · rw [hd] at hcontr; cases hcontr
              · rcases List.mem_cons.mp hx with hxr | hxr
                · rw [hxr] at hxd; rw [hr] at hxd; cases hxd
                · exact ⟨x, hxr, hxd⟩

theorem pollUnnamed_terminates (script : List Operation) :
    ∀ (op : Operation) (sleeps : Nat),
      op.done = true ∨ (∃ r ∈ script, r.done = true) →
      pollOperationUnnamed op script sleeps ≠ PollOutcome.outOfScript := by
  induction script with
  | nil =>
      intro op sleeps h
      rcases h with hd | ⟨r, hr, _⟩
      · rw [pollUnnamed_done op [] sleeps hd]
        exact unnamedPollFinish_ne_out op sleeps
      · simp at hr
  | cons r rest ih =>
      intro op sleeps h
      cases hd : op.done with
      | true =>
          rw [pollUnnamed_done op (r :: rest) sleeps hd]
          exact unnamedPollFinish_ne_out op sleeps
      | false =>
          cases herr : r.error with
          | some msg =>
              rw [pollUnnamed_error op r rest sleeps hd msg herr]
              simp
          | none =>
              rw [pollUnnamed_step op r rest sleeps hd herr]
              cases hr : r.done with
              | true => exact ih r (sleeps + 1) (Or.inl hr)
              | false =>
                  refine ih r (sleeps + 1) (Or.inr ?_)
                  rcases h with hcontr | ⟨x, hx, hxd⟩
                  · rw [hd] at hcontr; cases hcontr
                  · rcases List.mem_cons.mp hx with hxr | hxr
                    · rw [hxr] at hxd; rw [hr] at hxd; cases hxd
                    · exact ⟨x, hxr, hxd⟩

/-- C3.  With scripted responses not-done, not-done, done-with-result, both
`pollOperation` variants return the result after exactly 2 sleep cycles;
more generally, both terminate (never run off the end of the script still
polling) whenever some scripted response reports a terminal (done)
status. -/
theorem pollOperation_scripted_termination (u : String) (op : Operation)
    (script : List Operation) (sleeps : Nat)
    (hterm : op.done = true ∨ ∃ r ∈ script, r.done = true) :
    (pollOperationEditor opNotDone [opNotDone, opDoneWith u] 0 =
        PollOutcome.ok (some u) 2 ∧
     pollOperationUnnamed opNotDone [opNotDone, opDoneWith u] 0 =
        PollOutcome.ok (some u) 2) ∧
    (pollOperationEditor op script sleeps ≠ PollOutcome.outOfScript ∧
     pollOperationUnnamed op script sleeps ≠ PollOutcome.outOfScript) :=
  ⟨⟨rfl, rfl⟩, pollEditor_terminates script op sleeps hterm,
    pollUnnamed_terminates script op sleeps hterm⟩

/-- C3 witness: the termination part applied to the one-step script. -/
theorem pollOperation_scripted_termination_wit :
    pollOperationEditor opNotDone [opDoneWith "u"] 0 ≠ PollOutcome.outOfScript ∧
    pollOperationUnnamed opNotDone [opDoneWith "u"] 0 ≠ PollOutcome.outOfScript :=
  (pollOperation_scripted_termination "u" opNotDone [opDoneWith "u"] 0
    (Or.inr ⟨opDoneWith "u", by simp, rfl⟩)).2

/-- C4 counterexample.  The `gemini.ts` variant of `pollOperation` performs
no error check: a polled response carrying an error message and done=true is
reported as the generic no-URI failure (losing the collaborator message),
and a response carrying an error with done=false does not stop polling at
all — the loop keeps querying until the script is exhausted.  In neither
case does the run fail with the collaborator-supplied message. -/
theorem pollOperation_error_response_mishandled :
    pollOperationEditor opNotDone [opErrorDone "boom"] 0 = PollOutcome.noUri 1 ∧
    pollOperationEditor opNotDone [opErrorPending "boom"] 0 = PollOutcome.outOfScript :=
  ⟨rfl, rfl⟩

/-- C4 amended.  In the `part_000` variant of `pollOperation`, as soon as a
polled response carries an error the run stops with exactly the
collaborator-supplied message after the sleep cycle that fetched that
response — the sleep count does not depend on the remainder of the script,
so no further sleep/query cycles are performed. -/
theorem pollOperation_error_stops (rerr : Operation) (post : List Operation)
    (msg : String) (herr : rerr.error = some msg) :
    ∀ pre : List Operation, (∀ r ∈ pre, r.done = false ∧ r.error = none) →
    ∀ (op : Operation) (sleeps : Nat), op.done = false →
      pollOperationUnnamed op (pre ++ rerr :: post) sleeps =
        PollOutcome.genError msg (sleeps + pre.length + 1) := by
  intro pre
  induction pre with
  | nil =>
      intro _ op sleeps hop
      rw [List.nil_append, pollUnnamed_error op rerr post sleeps hop msg herr]
      simp
  | cons q pre' ih =>
      intro hpre op sleeps hop
      have hq := hpre q (List.mem_cons_self q pre')
      rw [List.cons_append, pollUnnamed_step op q (pre' ++ rerr :: post) sleeps hop hq.2,
        ih (fun r hr => hpre r (List.mem_cons_of_mem q hr)) q (sleeps + 1) hq.1]
      have harith : sleeps + 1 + pre'.length + 1 = sleeps + (q :: pre').length + 1 := by
        simp; omega
      rw [harith]

/-- C4 witness: a not-done response followed by an error response stops the
`part_000` poll run after 2 sleeps with the supplied message. -/
theorem pollOperation_error_stops_wit :
    pollOperationUnnamed opNotDone ([opNotDone] ++ opErrorPending "boom" :: [opDoneNoUri]) 0 =
      PollOutcome.genError "boom" 2 := by
  have h := pollOperation_error_stops (opErrorPending "boom") [opDoneNoUri] "boom" rfl
    [opNotDone] (by simp [opNotDone]) opNotDone 0 rfl
  simpa using h

/-- C5 counterexample.  The `part_000` variant of `pollOperation` performs
no missing-URI check: a done response with no result URI is not reported as
a failure at all — the run returns a success record whose original URI is
absent (the code proceeds to fetch the undefined link). -/
theorem pollOperation_missing_uri_not_fatal :
    pollOperationUnnamed opDoneNoUri [] 0 = PollOutcome.ok none 0 := rfl

/-- C5 amended.  In the `gemini.ts` variant of `pollOperation`, the first
done response with no video URI makes the run fail with the no-URI error
after the sleep cycle that fetched it — the sleep count does not depend on
the remainder of the script, so the failure is not retried. -/
theorem pollOperation_no_uri_fatal (rdone : Operation) (post : List Operation)
    (hdone : rdone.done = true) (huri : rdone.videoUri = none) :
    ∀ pre : List Operation, (∀ r ∈ pre, r.done = false) →
    ∀ (op : Operation) (sleeps : Nat), op.done = false →
      pollOperationEditor op (pre ++ rdone :: post) sleeps =
        PollOutcome.noUri (sleeps + pre.length + 1) := by
  intro pre
  induction pre with
  | nil =>
      intro _ op sleeps hop
      rw [List.nil_append, pollEditor_step op rdone post sleeps hop,
        pollEditor_done rdone post (sleeps + 1) hdone]
      simp [editorPollFinish, huri]
  | cons q pre' ih =>
      intro hpre op sleeps hop
      have hq := hpre q (List.mem_cons_self q pre')
      rw [List.cons_append, pollEditor_step op q (pre' ++ rdone :: post) sleeps hop,
        ih (fun r hr => hpre r (List.mem_cons_of_mem q hr)) q (sleeps + 1) hq]
      have harith : sleeps + 1 + pre'.length + 1 = sleeps + (q :: pre').length + 1 := by
        simp; omega
      rw [harith]

/-- C5 witness: a not-done response followed by a done-without-URI response
makes the `gemini.ts` poll run fail with the no-URI error after 2 sleeps. -/
theorem pollOperation_no_uri_fatal_wit :
    pollOperationEditor opNotDone ([opNotDone] ++ opDoneNoUri :: []) 0 =
      PollOutcome.noUri 2 := by
  have h := pollOperation_no_uri_fatal opDoneNoUri [] rfl rfl
    [opNotDone] (by simp [opNotDone]) opNotDone 0 rfl
  simpa using h

/-- C6 counterexample.  When the selected clip references a video asset
without a remote handle but is not in status `ready` (here: `generating`),
`handleExtend` returns silently — there is no user-visible message, because
the status guard fires before the asset guard. -/
theorem handleExtend_silent_on_generating :
    handleExtendStart extendGeneratingState =
      (extendGeneratingState, ExtendOutcome.silentReturn) := rfl

/-- C6 amended.  When the selected clip is found, is `ready`, and its asset
is a video without a remote handle, `handleExtend` aborts with the
user-visible alert and returns the state unchanged — in particular no
placeholder clip is inserted and assets and timeline are untouched. -/
theorem handleExtend_no_remote (st : AppState) (c : TimelineClip) (a : MediaAsset)
    (hfind : st.timeline.find? (fun c' => st.activeClipId == some c'.id) = some c)
    (hready : c.status = ClipStatus.ready)
    (hafind : st.assets.find? (fun a' => a'.id == c.assetId) = some a)
    (hvideo : a.type = MediaType.video)
    (huri : a.originalUri = none) :
    handleExtendStart st = (st, ExtendOutcome.alertOnly extendAlertMsg) := by
  unfold handleExtendStart
  rw [hfind]
  simp [hready, hafind, hvideo, huri]

/-- C6 witness: the amended theorem applied to the concrete state whose
ready clip references the uploaded no-remote-handle video. -/
theorem handleExtend_no_remote_wit :
    handleExtendStart extendReadyState =
      (extendReadyState, ExtendOutcome.alertOnly extendAlertMsg) :=
  handleExtend_no_remote extendReadyState uploadedVideoClip uploadedVideoAsset
    rfl rfl rfl rfl rfl

/-- C7 counterexample.  In the multi-track variant of `handleGenerate`
(`App.tsx` lines 65-92), no placeholder is appended before the job
resolves: the submission phase changes only the busy flag (all tracks keep
their clips, here none), and on resolution the clip is appended directly
with status `ready`. -/
theorem ultimate_generate_no_placeholder :
    (uGenerateSubmit uInitState).tracks = uInitState.tracks ∧
    ((uGenerateSubmit uInitState).tracks.all fun t => t.clips.isEmpty) = true ∧
    ((uGenerateResolve "asset1" "clip1" "u" 0 (uGenerateSubmit uInitState)).tracks.map
        fun t => t.clips.map fun c => c.status) =
      [[ClipStatus.ready], [], []] :=
  ⟨rfl, rfl, rfl⟩

/-- C7 amended.  In the history-enabled editor variant of `handleGenerate`
(`App.tsx` lines 742-813): the submission phase appends exactly the
placeholder clip (status `generating`, empty assetId) to the timeline
before the job resolves; the resolution phase appends exactly one new asset
and turns the clip with the placeholder id into a `ready` clip whose
non-empty assetId references that new asset. -/
theorem generate_placeholder_lifecycle (p newClipId newAssetId uri : String)
    (es : EditorState)
    (hid : newAssetId ≠ "")
    (hfresh : ∀ c ∈ es.state.timeline, c.id ≠ newClipId) :
    (generateSubmit p newClipId es).state.timeline =
        es.state.timeline ++ [mkTempClip newClipId p es.state.timeline.length] ∧
    (mkTempClip newClipId p es.state.timeline.length).status = ClipStatus.generating ∧
    (mkTempClip newClipId p es.state.timeline.length).assetId = "" ∧
    (generateResolve newClipId newAssetId p uri (generateSubmit p newClipId es)).state.assets =
        (generateSubmit p newClipId es).state.assets ++ [mkGeneratedAsset newAssetId p uri] ∧
    (generateResolve newClipId newAssetId p uri (generateSubmit p newClipId es)).state.timeline =
        es.state.timeline ++
          [{ mkTempClip newClipId p es.state.timeline.length with
              assetId := newAssetId, status := ClipStatus.ready }] ∧
    ({ mkTempClip newClipId p es.state.timeline.length with
        assetId := newAssetId, status := ClipStatus.ready }).assetId ≠ "" ∧
    (∃ a2 ∈ (generateResolve newClipId newAssetId p uri
        (generateSubmit p newClipId es)).state.assets, a2.id = newAssetId) := by
  refine ⟨rfl, rfl, rfl, rfl, ?_, hid, ?_⟩
  · show ((es.state.timeline ++ [mkTempClip newClipId p es.state.timeline.length]).map
        fun c => if c.id == newClipId
          then { c with assetId := newAssetId, status := ClipStatus.ready } else c) = _
    rw [List.map_append]
    have h1 : (es.state.timeline.map
        fun c => if c.id == newClipId
          then { c with assetId := newAssetId, status := ClipStatus.ready } else c) =
        es.state.timeline := by
      conv_rhs => rw [← List.map_id es.state.timeline]
      apply List.map_congr_left
      intro c hc
      simp [hfresh c hc]
    rw [h1]
    simp [mkTempClip]
  · exact ⟨mkGeneratedAsset newAssetId p uri, by simp [generateResolve], rfl⟩

/-- C7 witness: the amended lifecycle on the empty editor with prompt
sunset. -/
theorem generate_placeholder_lifecycle_wit :
    (generateSubmit "sunset" "clip1" emptyEditor).state.timeline =
      [mkTempClip "clip1" "sunset" 0] ∧
    (generateResolve "clip1" "asset1" "sunset" "u"
        (generateSubmit "sunset" "clip1" emptyEditor)).state.timeline =
      [{ mkTempClip "clip1" "sunset" 0 with
          assetId := "asset1", status := ClipStatus.ready }] := by
  have h := generate_placeholder_lifecycle "sunset" "clip1" "asset1" "u" emptyEditor
    (by simp) (by intro c hc; simp [emptyEditor, emptyAppState] at hc)
  exact ⟨by simpa using h.1, by simpa using h.2.2.2.2.1⟩

/-- C8.  The failure handlers of `handleGenerate` (`App.tsx` lines 808-812)
and `handleExtend` (lines 860-864) only clear the busy flag: the
placeholder clip inserted before the job failed is left in status
`generating`, not flipped to `error` as the spec requires. -/
theorem generation_failure_leaves_clip_generating :
    ((generateFail (generateSubmit "sunset" "clip1" emptyEditor)).state.timeline.map
        fun c => (c.id, c.status)) = [("clip1", ClipStatus.generating)] ∧
    (generateFail (generateSubmit "sunset" "clip1" emptyEditor)).state.isGenerating = false ∧
    ((handleExtendFail (handleExtendInsert "clip2" 5 "clip1" emptyEditor)).state.timeline.map
        fun c => (c.id, c.status)) = [("clip2", ClipStatus.generating)] ∧
    (handleExtendFail (handleExtendInsert "clip2" 5 "clip1" emptyEditor)).state.isGenerating =
      false :=
  ⟨rfl, rfl, rfl, rfl⟩

/-- C9.  Every advisory-suggestion operation falls back to its neutral
default when the collaborator response fails to parse (neutral Lumetri
parameters for color grading, the empty list for B-roll, captions, scenes
and storyboard), instead of propagating the parse failure; the storyboard
completion leaves timeline and assets untouched, and the scan-scenes
completion applied to the fallback value preserves every clip id, assetId
and status (it only writes the advisory scenes attribute, as on any
successful response). -/
theorem advisory_parse_fallback (st : AppState) (es : EditorState) (cid : String) :
    suggestColorGradingResult none = neutralColorGrading ∧
    suggestBRollResult none = [] ∧
    generateViralCaptionsResult none = [] ∧
    analyzeScenesResult none = [] ∧
    generateStoryboardResult none = [] ∧
    (handleStoryboardComplete (generateStoryboardResult none) st).timeline = st.timeline ∧
    (handleStoryboardComplete (generateStoryboardResult none) st).assets = st.assets ∧
    ((handleScanScenesComplete cid (analyzeScenesResult none) es).state.timeline.map
        fun c => (c.id, c.assetId, c.status)) =
      es.state.timeline.map fun c => (c.id, c.assetId, c.status) := by
  refine ⟨rfl, rfl, rfl, rfl, rfl, rfl, rfl, ?_⟩
  show ((es.state.timeline.map
      fun c => if c.id == cid then { c with scenes := some [] } else c).map
        fun c => (c.id, c.assetId, c.status)) = _
  rw [List.map_map]
  apply List.map_congr_left
  intro c _
  rcases eq_or_ne c.id cid with h | h <;> simp [h]

end VideoEditor
